import Mathlib

/-!
Shallow embedding of the client-side session logic of the SQL tutoring
UI (src/sql-ui/src/App.jsx): session state, authentication-token lookup,
the validate / hint / progress / feedback / login flows, and question
navigation.  JavaScript numbers are modelled as Int; a JavaScript null
number-coercion (null becomes 0 in arithmetic and in Math.min) is made
explicit through jsNum.  A flow that awaits a network response receives
that response as an Except value: an Except.error input stands for a
rejected fetch or a malformed response body; since no flow in the source
has a catch handler, such a fault surfaces in the FlowOut.fault field.
-/

/-- JavaScript number-coercion of a possibly-null number: null coerces
to 0 (so Math.min(51, null) = 0 and null + 1 = 1). -/
def jsNum : Option Int → Int
  | none => 0
  | some n => n

/-- Tabular student output as rendered by the UI: columns, rows, and an
optional error string (output.student_output in App.jsx). -/
structure TabularData where
  cols : List String
  rows : List (List String)
  error : Option String
deriving Repr, DecidableEq

/-- The fields of a validation response body the client reads:
data.success and data.student_output (App.jsx lines 137-142, 312-332). -/
structure ResultVal where
  success : Bool
  student_output : Option TabularData
deriving Repr, DecidableEq

/-- The nested execution record of a hint response (data.execution). -/
structure HintExecution where
  student : TabularData
deriving Repr, DecidableEq

/-- The fields of a hint response body the client reads: data.hint,
data.success and data.execution.student (App.jsx lines 173-181). -/
structure HintResponse where
  hint : String
  success : Bool
  execution : HintExecution
deriving Repr, DecidableEq

/-- The fields of a progress response body the client reads:
data.question_number and data.user_id (App.jsx lines 119-123). -/
structure ProgressData where
  question_number : Nat
  user_id : String
deriving Repr, DecidableEq

/-- A network request dispatched by a flow, with the bearer token it
carries (none models the absent token interpolated into the header). -/
inductive Request where
  | validate (auth : Option String) (student_sql : String) (question_number : Int)
  | hintReq (auth : Option String) (student_sql : String) (question_number : Int)
      (hint_level : Int)
  | feedbackReq (auth : Option String) (question_number : Int) (helpful : Bool)
      (hint_level : Int)
  | progressReq (auth : Option String)
  | authGoogle (credential : String)
deriving Repr, DecidableEq

/-- The component state of App.jsx: sql, output, hint, id
(currentQuestionIndex), hint_level, progress, userId. -/
structure Session where
  sql : String
  output : Option ResultVal
  hint : Option String
  id : Int
  hint_level : Int
  progress : Option Int
  userId : Option String
deriving Repr, DecidableEq

/-- The initial component state (App.jsx lines 55-62). -/
def initSession : Session :=
  { sql := "SELECT first_name, last_name FROM patients;",
    output := none,
    hint := none,
    id := 1,
    hint_level := 1,
    progress := none,
    userId := none }

/-- What a flow produced: the session after its state updates, the
toasts it showed, the network requests it dispatched, and the fault it
rejected with (none when the flow ran to completion; the source has no
catch handler, so an awaited rejection aborts the rest of the flow and
propagates). -/
structure FlowOut where
  session : Session
  toasts : List String
  requests : List Request
  fault : Option String
deriving Repr, DecidableEq

/-- getAccessToken (App.jsx lines 67-74): reads the stored token; when
absent it toasts a log-in error and yields null. Returns the token the
caller interpolates into the Authorization header, with the toasts. -/
def getAccessToken (store : Option String) : Option String × List String :=
  match store with
  | none => (none, ["You need to log in first!"])
  | some t => (some t, [])

/-- runQuery (App.jsx lines 126-143): clears the hint, dispatches the
validate request (always, the token check does not stop it), stores the
response as output, and on success toasts and bumps progress by one. -/
def runQuery (store : Option String) (s : Session)
    (resp : Except String ResultVal) : FlowOut :=
  let s1 : Session := { s with hint := none }
  let tok := (getAccessToken store).1
  let authToasts := (getAccessToken store).2
  let req := Request.validate tok s1.sql s1.id
  match resp with
  | Except.error e =>
      { session := s1, toasts := authToasts, requests := [req], fault := some e }
  | Except.ok data =>
      let s2 : Session := { s1 with output := some data }
      if data.success then
        { session := { s2 with progress := some (jsNum s2.progress + 1) },
          toasts := authToasts ++ ["Correct answer!"],
          requests := [req],
          fault := none }
      else
        { session := s2, toasts := authToasts, requests := [req], fault := none }

/-- getProgress (App.jsx lines 115-124): dispatches the progress
request and, from the response, sets progress and id to
question_number + 1 and userId to user_id. -/
def getProgress (store : Option String) (s : Session)
    (resp : Except String ProgressData) : FlowOut :=
  let tok := (getAccessToken store).1
  let authToasts := (getAccessToken store).2
  let req := Request.progressReq tok
  match resp with
  | Except.error e =>
      { session := s, toasts := authToasts, requests := [req], fault := some e }
  | Except.ok d =>
      let s1 : Session :=
        { s with progress := some ((d.question_number : Int) + 1),
                 userId := some d.user_id,
                 id := (d.question_number : Int) + 1 }
      { session := s1,
        toasts := authToasts,
        requests := [req],
        fault := none }

/-- googleLogin (App.jsx lines 103-113): posts the credential, stores
the returned access_token, then runs getProgress with it. Returns the
new token store alongside the flow output. -/
def googleLogin (store : Option String) (s : Session) (credential : String)
    (authResp : Except String String) (pResp : Except String ProgressData) :
    Option String × FlowOut :=
  let req := Request.authGoogle credential
  match authResp with
  | Except.error e =>
      (store, { session := s, toasts := [], requests := [req], fault := some e })
  | Except.ok tok =>
      let g := getProgress (some tok) s pResp
      (some tok, { g with requests := req :: g.requests })

/-- getFeedback (App.jsx lines 145-160): posts the current question id
and hint level with the helpful flag; on data.ok toasts a thank-you. -/
def getFeedback (store : Option String) (s : Session) (helpful : Bool)
    (resp : Except String Bool) : FlowOut :=
  let tok := (getAccessToken store).1
  let authToasts := (getAccessToken store).2
  let req := Request.feedbackReq tok s.id helpful s.hint_level
  match resp with
  | Except.error e =>
      { session := s, toasts := authToasts, requests := [req], fault := some e }
  | Except.ok ok =>
      { session := s,
        toasts := authToasts ++ (if ok then ["Thank you for your feedback!"] else []),
        requests := [req],
        fault := none }

/-- The lifting of a hint response into the displayed output (App.jsx
lines 175-177): the response spread with student_output set to
execution.student. -/
def liftHint (data : HintResponse) : ResultVal :=
  { success := data.success, student_output := some data.execution.student }

/-- getHint (App.jsx lines 162-182): dispatches the hint request, sets
the hint text, lifts the nested execution record into the output, and
on success toasts and bumps progress exactly as runQuery does. -/
def getHint (store : Option String) (s : Session)
    (resp : Except String HintResponse) : FlowOut :=
  let tok := (getAccessToken store).1
  let authToasts := (getAccessToken store).2
  let req := Request.hintReq tok s.sql s.id s.hint_level
  match resp with
  | Except.error e =>
      { session := s, toasts := authToasts, requests := [req], fault := some e }
  | Except.ok data =>
      let s1 : Session :=
        { s with hint := some data.hint, output := some (liftHint data) }
      if data.success then
        { session := { s1 with progress := some (jsNum s1.progress + 1) },
          toasts := authToasts ++ ["Correct answer!"],
          requests := [req],
          fault := none }
      else
        { session := s1, toasts := authToasts, requests := [req], fault := none }

/-- The question-count bound hardcoded in the Next button (App.jsx line
301: Math.min(51, progress)). -/
def totalQuestions : Int := 51

/-- The Previous Question button (App.jsx line 295):
setId(Math.max(1, id - 1)). -/
def goToPrevious (s : Session) : Session :=
  { s with id := max 1 (s.id - 1) }

/-- The Next Question button (App.jsx line 301):
setId(Math.min(51, progress)); a null progress coerces to 0. -/
def goToNext (s : Session) : Session :=
  { s with id := min totalQuestions (jsNum s.progress) }

/-- Whether the Next button renders as disabled (App.jsx line 302): the
class is applied exactly when progress === id; null === id is false. -/
def nextDisabled (s : Session) : Bool :=
  match s.progress with
  | some p => p == s.id
  | none => false

/-- The hint-level select (App.jsx line 260): setHintLevel. -/
def setLevel (s : Session) (l : Int) : Session :=
  { s with hint_level := l }

/-- A user- or startup-triggered event together with the network
response its flow (if any) will receive. -/
inductive Event where
  | prev
  | next
  | setLevelEv (l : Int)
  | refresh (r : Except String ProgressData)
  | login (credential : String) (a : Except String String)
      (r : Except String ProgressData)
  | submit (r : Except String ResultVal)
  | hintEv (r : Except String HintResponse)
  | feedbackEv (helpful : Bool) (r : Except String Bool)
deriving Repr

/-- The full client state: the durable token store plus the component
state. -/
structure ClientState where
  store : Option String
  session : Session
deriving Repr, DecidableEq

/-- The client state at startup: whatever token survives in durable
storage, and the initial component state. -/
def initState (store : Option String) : ClientState :=
  { store := store, session := initSession }

/-- One event step: the new client state and the requests dispatched. -/
def stepOut (st : ClientState) : Event → ClientState × List Request
  | Event.prev => ({ st with session := goToPrevious st.session }, [])
  | Event.next => ({ st with session := goToNext st.session }, [])
  | Event.setLevelEv l => ({ st with session := setLevel st.session l }, [])
  | Event.refresh r =>
      let f := getProgress st.store st.session r
      ({ st with session := f.session }, f.requests)
  | Event.login credential a r =>
      let (store2, f) := googleLogin st.store st.session credential a r
      ({ store := store2, session := f.session }, f.requests)
  | Event.submit r =>
      let f := runQuery st.store st.session r
      ({ st with session := f.session }, f.requests)
  | Event.hintEv r =>
      let f := getHint st.store st.session r
      ({ st with session := f.session }, f.requests)
  | Event.feedbackEv helpful r =>
      let f := getFeedback st.store st.session helpful r
      ({ st with session := f.session }, f.requests)

/-- The state transition of one event. -/
def step (st : ClientState) (e : Event) : ClientState :=
  (stepOut st e).1

/-- Running a sequence of events from a state. -/
def run (st : ClientState) : List Event → ClientState
  | [] => st
  | e :: es => run (step st e) es

/-- Running a sequence of events, collecting every dispatched request
in order. -/
def runOut (st : ClientState) : List Event → ClientState × List Request
  | [] => (st, [])
  | e :: es =>
      let (st1, reqs) := stepOut st e
      let (st2, reqs2) := runOut st1 es
      (st2, reqs ++ reqs2)

/-- Guard for the amended navigation invariant: next is only taken
once progress has loaded, and every completed progress refresh reports
a last-answered question number of at most totalQuestions - 1. -/
def okEvent (st : ClientState) : Event → Bool
  | Event.next => st.session.progress.isSome
  | Event.refresh (Except.ok d) => decide (d.question_number + 1 ≤ 51)
  | Event.login _ _ (Except.ok d) => decide (d.question_number + 1 ≤ 51)
  | _ => true

/-- A trace every step of which satisfies okEvent. -/
def goodTrace (st : ClientState) : List Event → Bool
  | [] => true
  | e :: es => okEvent st e && goodTrace (step st e) es

/-- The inductive invariant behind the navigation claim: the question
index is in range and any loaded progress value is at least 1. -/
def NavInv (st : ClientState) : Prop :=
  1 ≤ st.session.id ∧ st.session.id ≤ totalQuestions ∧
    ∀ p, st.session.progress = some p → 1 ≤ p

/-- A successful validation verdict with no tabular payload. -/
def vRight : ResultVal := { success := true, student_output := none }

/-- A failing validation verdict with no tabular payload. -/
def vWrong : ResultVal := { success := false, student_output := none }

/-- A level-3 style hint response whose verdict is failure. -/
def hRespFail : HintResponse :=
  { hint := "try GROUP BY", success := false,
    execution := { student := { cols := ["x"], rows := [], error := none } } }

/-- A hint response whose verdict is success. -/
def hRespPass : HintResponse :=
  { hint := "well done", success := true,
    execution := { student := { cols := ["x"], rows := [], error := none } } }

/-- A session sitting on question 1 while progress gates question 5. -/
def sMid : Session := { initSession with progress := some 5 }

/-- A session sitting on question 3. -/
def sThree : Session := { initSession with id := 3 }

/-- Request a hint on question 5 at level 3, navigate back to question
4, then rate the hint: the interaction sequence behind the feedback
attribution claim. -/
def hintTrace : List Event :=
  [Event.refresh (Except.ok { question_number := 4, user_id := "u" }),
   Event.setLevelEv 3,
   Event.hintEv (Except.ok hRespFail),
   Event.prev,
   Event.feedbackEv true (Except.ok true)]

/-- A guarded trace exercising refresh, both navigation buttons and a
successful submission. -/
def c4trace : List Event :=
  [Event.refresh (Except.ok { question_number := 4, user_id := "u" }),
   Event.next,
   Event.prev,
   Event.submit (Except.ok vRight),
   Event.next]

theorem navInv_step {st : ClientState} {e : Event} (h : NavInv st)
    (hok : okEvent st e = true) : NavInv (step st e) := by
  obtain ⟨h1, h2, h3⟩ := h
  cases e with
  | prev =>
      refine ⟨?_, ?_, ?_⟩ <;>
        simp only [step, stepOut, goToPrevious, totalQuestions] at *
      · exact le_max_left _ _
      · exact max_le (by omega) (by omega)
      · exact h3
  | next =>
      simp only [okEvent, Option.isSome_iff_exists] at hok
      obtain ⟨p, hp⟩ := hok
      refine ⟨?_, ?_, ?_⟩ <;>
        simp only [step, stepOut, goToNext, totalQuestions, hp, jsNum]
      · exact le_min (by omega) (h3 p hp)
      · exact min_le_left _ _
      · intro q hq
        injection hq with hq
        have := h3 p hp
        omega
  | setLevelEv l =>
      exact ⟨h1, h2, h3⟩
  | refresh r =>
      cases r with
      | error e => exact ⟨h1, h2, h3⟩
      | ok d =>
          simp only [okEvent, decide_eq_true_eq] at hok
          refine ⟨?_, ?_, ?_⟩ <;>
            simp only [step, stepOut, getProgress, totalQuestions]
          · omega
          · omega
          · intro p hp
            injection hp with hp
            omega
  | login credential a r =>
      cases a with
      | error e => exact ⟨h1, h2, h3⟩
      | ok tok =>
          cases r with
          | error e => exact ⟨h1, h2, h3⟩
          | ok d =>
              simp only [okEvent, decide_eq_true_eq] at hok
              refine ⟨?_, ?_, ?_⟩ <;>
                simp only [step, stepOut, googleLogin, getProgress,
                  totalQuestions]
              · omega
              · omega
              · intro p hp
                injection hp with hp
                omega
  | submit r =>
      have hj : 0 ≤ jsNum st.session.progress := by
        cases hpr : st.session.progress with
        | none => simp [jsNum]
        | some p => simpa [jsNum] using le_trans (by omega) (h3 p hpr)
      cases r with
      | error e => exact ⟨h1, h2, h3⟩
      | ok data =>
          by_cases hs : data.success
          · refine ⟨?_, ?_, ?_⟩ <;>
              simp only [step, stepOut, runQuery, hs, if_true, totalQuestions]
            · exact h1
            · exact h2
            · intro p hp
              injection hp with hp
              omega
          · refine ⟨?_, ?_, ?_⟩ <;>
              simp only [step, stepOut, runQuery, hs, if_false, totalQuestions]
            · exact h1
            · exact h2
            · exact h3
  | hintEv r =>
      have hj : 0 ≤ jsNum st.session.progress := by
        cases hpr : st.session.progress with
        | none => simp [jsNum]
        | some p => simpa [jsNum] using le_trans (by omega) (h3 p hpr)
      cases r with
      | error e => exact ⟨h1, h2, h3⟩
      | ok data =>
          by_cases hs : data.success
          · refine ⟨?_, ?_, ?_⟩ <;>
              simp only [step, stepOut, getHint, hs, if_true, totalQuestions]
            · exact h1
            · exact h2
            · intro p hp
              injection hp with hp
              omega
          · refine ⟨?_, ?_, ?_⟩ <;>
              simp only [step, stepOut, getHint, hs, if_false, totalQuestions]
            · exact h1
            · exact h2
            · exact h3
  | feedbackEv helpful r =>
      cases r with
      | error e => exact ⟨h1, h2, h3⟩
      | ok b => exact ⟨h1, h2, h3⟩

theorem navInv_run {st : ClientState} {es : List Event} (h : NavInv st)
    (hok : goodTrace st es = true) : NavInv (run st es) := by
  induction es generalizing st with
  | nil => exact h
  | cons e es ih =>
      simp only [goodTrace, Bool.and_eq_true] at hok
      exact ih (navInv_step h hok.1) hok.2

/-- C1 (counterexample): with no stored token, runQuery still
dispatches the validation request (with a null token in its header), so
the claim that no network call is performed is false at this input. -/
theorem C1_counterexample :
    (runQuery none initSession (Except.ok vWrong)).requests =
      [Request.validate none "SELECT first_name, last_name FROM patients;" 1] ∧
    (runQuery none initSession (Except.ok vWrong)).requests.isEmpty = false := by
  constructor <;> rfl

/-- C1 (amended): submitting with no stored auth token yields the
log-in notification, but the validation request is nevertheless sent,
carrying no token in its Authorization header. -/
theorem C1_submit_unauthenticated (s : Session) (resp : Except String ResultVal) :
    (runQuery none s resp).toasts.head? = some "You need to log in first!" ∧
    (runQuery none s resp).requests = [Request.validate none s.sql s.id] := by
  cases resp with
  | error e => exact ⟨rfl, rfl⟩
  | ok data =>
      by_cases hs : data.success <;>
        simp [runQuery, getAccessToken, hs]

/-- C2 (counterexample): with the session on question 1 while progress
gates question 5, a successful validation of question 1 still advances
progress to 6, so a successful re-solve of an earlier question does not
leave progress unchanged. -/
theorem C2_counterexample :
    sMid.id = 1 ∧ sMid.progress = some 5 ∧
    (runQuery (some "tok") sMid (Except.ok vRight)).session.progress = some 6 := by
  refine ⟨rfl, rfl, rfl⟩

/-- C2 (amended): on a success verdict runQuery increments progress by
one unconditionally, whatever the relation between the submitted
question index and the question that gates progress. -/
theorem C2_submit_increment_unconditional (store : Option String) (s : Session)
    (data : ResultVal) (h : data.success = true) :
    (runQuery store s (Except.ok data)).session.progress =
      some (jsNum s.progress + 1) := by
  simp [runQuery, h]

/-- C2 (witness): the amended claim at the counterexample session. -/
theorem C2_witness :
    (runQuery (some "tok") sMid (Except.ok vRight)).session.progress =
      some (jsNum sMid.progress + 1) :=
  C2_submit_increment_unconditional (some "tok") sMid vRight rfl

/-- C3 (counterexample): in the initial state progress is unknown, yet
the next affordance is not disabled and clicking it moves the question
index from 1 to 0 (Math.min(51, null) = 0). -/
theorem C3_counterexample :
    initSession.progress = none ∧ nextDisabled initSession = false ∧
    initSession.id = 1 ∧ (goToNext initSession).id = 0 := by
  refine ⟨rfl, rfl, rfl, rfl⟩

/-- C3 (amended): when progress is loaded, goToNext sets the question
index to min(totalQuestions, progress) and never moves it beyond
progress; but when progress is unknown the next affordance is not
disabled and clicking it sets the question index to 0. -/
theorem C3_goToNext_clamp (s : Session) :
    (∀ p : Int, s.progress = some p →
      (goToNext s).id = min totalQuestions p ∧ (goToNext s).id ≤ p) ∧
    (s.progress = none → nextDisabled s = false ∧ (goToNext s).id = 0) := by
  constructor
  · intro p hp
    constructor
    · simp [goToNext, jsNum, hp]
    · simp only [goToNext, jsNum, hp]
      exact min_le_right _ _
  · intro hp
    constructor
    · simp [nextDisabled, hp]
    · simp [goToNext, jsNum, hp, totalQuestions]

/-- C4 (counterexample): the state reached from startup (with or
without a stored token) by one click of the next button has question
index 0, outside [1, totalQuestions]: progress is still unknown and
Math.min(51, null) = 0. -/
theorem C4_counterexample :
    (run (initState none) [Event.next]).session.id = 0 ∧ totalQuestions = 51 := by
  refine ⟨rfl, rfl⟩

/-- C4 (amended): the question index stays within [1, totalQuestions]
on every event trace in which the next button is only clicked once
progress has loaded and every completed progress refresh reports a
last-answered question number of at most totalQuestions - 1; without
those guards the invariant fails. -/
theorem C4_nav_invariant_guarded (store : Option String) (es : List Event)
    (h : goodTrace (initState store) es = true) :
    1 ≤ (run (initState store) es).session.id ∧
    (run (initState store) es).session.id ≤ totalQuestions := by
  have hinv : NavInv (initState store) := by
    refine ⟨by norm_num [initState, initSession], by norm_num [initState, initSession, totalQuestions], ?_⟩
    intro p hp
    simp [initState, initSession] at hp
  have := navInv_run hinv h
  exact ⟨this.1, this.2.1⟩

/-- C4 (witness): the amended invariant on a concrete guarded trace
exercising refresh, both navigation buttons and a successful
submission. -/
theorem C4_witness :
    1 ≤ (run (initState (some "tok")) c4trace).session.id ∧
    (run (initState (some "tok")) c4trace).session.id ≤ totalQuestions :=
  C4_nav_invariant_guarded (some "tok") c4trace (by decide)

/-- C5 (counterexample): a rejected validation fetch propagates out of
runQuery as an uncaught fault, so the claim that every error outcome is
handled locally at the flow boundary is false at this input. -/
theorem C5_counterexample :
    (runQuery (some "tok") initSession
      (Except.error "network failure")).fault = some "network failure" := by
  rfl

/-- C5 (amended): the flows contain no catch handler: a network failure
or malformed response body (an Except.error response) propagates as an
uncaught fault from every flow, while a parsed response of any shape
(an Except.ok response, including a failure verdict) is handled locally
and raises no fault. -/
theorem C5_fault_propagation (store : Option String) (s : Session)
    (helpful : Bool) (credential : String)
    (pResp : Except String ProgressData) (e : String) :
    (runQuery store s (Except.error e)).fault = some e ∧
    (getHint store s (Except.error e)).fault = some e ∧
    (getProgress store s (Except.error e)).fault = some e ∧
    (getFeedback store s helpful (Except.error e)).fault = some e ∧
    (googleLogin store s credential (Except.error e) pResp).2.fault = some e ∧
    (∀ data : ResultVal, (runQuery store s (Except.ok data)).fault = none) ∧
    (∀ data : HintResponse, (getHint store s (Except.ok data)).fault = none) ∧
    (∀ d : ProgressData, (getProgress store s (Except.ok d)).fault = none) ∧
    (∀ b : Bool, (getFeedback store s helpful (Except.ok b)).fault = none) ∧
    (∀ (tok : String) (d : ProgressData),
      (googleLogin store s credential (Except.ok tok) (Except.ok d)).2.fault = none) := by
  refine ⟨rfl, rfl, rfl, rfl, rfl, ?_, ?_, fun d => rfl, fun b => rfl, fun tok d => rfl⟩
  · intro data
    by_cases hs : data.success <;> simp [runQuery, hs]
  · intro data
    by_cases hs : data.success <;> simp [getHint, hs]

/-- C6: a parsed validation response advances progress to exactly
jsNum progress + 1 when its verdict is success and leaves it unchanged
otherwise, and no submit, hint or feedback flow ever decreases the
(null-coerced) progress value. -/
theorem C6_progress_monotone (store : Option String) (s : Session)
    (data : ResultVal) (r : Except String ResultVal)
    (hr : Except String HintResponse) (helpful : Bool)
    (fr : Except String Bool) :
    ((runQuery store s (Except.ok data)).session.progress =
      if data.success then some (jsNum s.progress + 1) else s.progress) ∧
    jsNum s.progress ≤ jsNum (runQuery store s r).session.progress ∧
    jsNum s.progress ≤ jsNum (getHint store s hr).session.progress ∧
    jsNum s.progress ≤ jsNum (getFeedback store s helpful fr).session.progress := by
  refine ⟨?_, ?_, ?_, ?_⟩
  · by_cases hs : data.success <;> simp [runQuery, hs]
  · cases r with
    | error e => simp [runQuery]
    | ok d =>
        by_cases hs : d.success <;> simp [runQuery, hs, jsNum]
  · cases hr with
    | error e => simp [getHint]
    | ok d =>
        by_cases hs : d.success <;> simp [getHint, hs, jsNum]
  · cases fr with
    | error e => simp [getFeedback]
    | ok b => simp [getFeedback]

/-- C7: when a hint response signals the answer was correct, the hint
flow shows exactly the toasts the submission flow shows for a success
verdict and applies the same progress transition, advancing progress to
jsNum progress + 1. -/
theorem C7_hint_mirrors_submit (store : Option String) (s : Session)
    (v : ResultVal) (hq : HintResponse)
    (hv : v.success = true) (hh : hq.success = true) :
    (getHint store s (Except.ok hq)).toasts =
      (runQuery store s (Except.ok v)).toasts ∧
    (getHint store s (Except.ok hq)).session.progress =
      (runQuery store s (Except.ok v)).session.progress ∧
    (runQuery store s (Except.ok v)).session.progress =
      some (jsNum s.progress + 1) := by
  refine ⟨?_, ?_, ?_⟩ <;> simp [getHint, runQuery, hv, hh]

/-- C7 (witness): the equality of success handling at a concrete
session, success verdict and success-signalling hint response. -/
theorem C7_witness :
    (getHint (some "tok") initSession (Except.ok hRespPass)).toasts =
      (runQuery (some "tok") initSession (Except.ok vRight)).toasts ∧
    (getHint (some "tok") initSession (Except.ok hRespPass)).session.progress =
      (runQuery (some "tok") initSession (Except.ok vRight)).session.progress ∧
    (runQuery (some "tok") initSession (Except.ok vRight)).session.progress =
      some (jsNum initSession.progress + 1) :=
  C7_hint_mirrors_submit (some "tok") initSession vRight hRespPass rfl rfl

/-- C8: for a question index in [1, totalQuestions], goToPrevious lands
on max(1, index - 1) (so on index - 1 from index at least 2), and at
index 1 it is the identity, hence idempotent under any number of
applications. -/
theorem C8_goToPrevious_clamp (s : Session) (h1 : 1 ≤ s.id)
    (h2 : s.id ≤ totalQuestions) :
    (goToPrevious s).id = max 1 (s.id - 1) ∧
    (2 ≤ s.id → (goToPrevious s).id = s.id - 1) ∧
    (s.id = 1 → ∀ k : Nat, goToPrevious^[k] s = s) := by
  refine ⟨rfl, ?_, ?_⟩
  · intro hge
    simp only [goToPrevious]
    omega
  · intro hid
    have hfix : goToPrevious s = s := by
      cases s
      simp only [goToPrevious] at *
      simp_all
    intro k
    induction k with
    | zero => rfl
    | succ k ih => rw [Function.iterate_succ_apply, hfix, ih]

/-- C8 (witness): the clamped previous-navigation behaviour at the
concrete session on question 3. -/
theorem C8_witness :
    (goToPrevious sThree).id = max 1 (sThree.id - 1) ∧
    (2 ≤ sThree.id → (goToPrevious sThree).id = sThree.id - 1) ∧
    (sThree.id = 1 → ∀ k : Nat, goToPrevious^[k] sThree = sThree) :=
  C8_goToPrevious_clamp sThree (by decide) (by decide)

/-- C9: every feedback report posts the question index and hint level
held by the session at the moment of the click; on the concrete trace
that requests a hint on question 5 at level 3 and then navigates back
to question 4 before rating it, the report is attributed to question 4
while the rated hint was requested for question 5. -/
theorem C9_feedback_attribution :
    (∀ (store : Option String) (s : Session) (helpful : Bool)
        (r : Except String Bool),
      (getFeedback store s helpful r).requests =
        [Request.feedbackReq (getAccessToken store).1 s.id helpful s.hint_level]) ∧
    (runOut (initState (some "tok")) hintTrace).2 =
      [Request.progressReq (some "tok"),
       Request.hintReq (some "tok")
         "SELECT first_name, last_name FROM patients;" 5 3,
       Request.feedbackReq (some "tok") 4 true 3] := by
  constructor
  · intro store s helpful r
    cases r <;> rfl
  · rfl

/-- C10: a completed progress refresh sets both the question index and
progress to question_number + 1 whatever the question index held
before, and a successful login stores the returned token and performs
exactly that refresh with it. -/
theorem C10_refresh_resets_position (store : Option String) (s : Session)
    (d : ProgressData) (credential tok : String) :
    (getProgress store s (Except.ok d)).session.id =
      (d.question_number : Int) + 1 ∧
    (getProgress store s (Except.ok d)).session.progress =
      some ((d.question_number : Int) + 1) ∧
    (googleLogin store s credential (Except.ok tok) (Except.ok d)).2.session =
      (getProgress (some tok) s (Except.ok d)).session ∧
    (googleLogin store s credential (Except.ok tok) (Except.ok d)).1 =
      some tok := by
  exact ⟨rfl, rfl, rfl, rfl⟩
